import Mathlib

/-!
# Shallow embedding of the course-platform authentication backend

This file embeds the FastAPI backend of `project1.py` (users, courses,
enrollments, refresh-token ledger; registration, login, refresh rotation,
session resolution, enrollment management) as executable Lean definitions,
and settles the frozen claims about it.

Modelling conventions:
* The SQLite store is a `DB` record of lists of rows; an HTTP handler is a
  function `DB → Except HttpError α × DB` returning the response (or the
  raised exception) together with the post-request store.
* JWTs (`jose.jwt.encode` / `jwt.decode` with HS256 and a shared secret) are
  modelled symbolically: a token is either a well-formed signature of a
  payload under a key, or malformed.  `jwt.encode` is deterministic and
  injective on payloads, so equality of `Token` values models equality of
  the encoded token strings stored in the ledger.
* Times are `Nat` seconds; the current time `now` is threaded explicitly.
* Password hashing (`passlib` bcrypt) is kept abstract: the handlers are
  parameterised over the `hash : String → String` and
  `verify : String → String → Bool` functions, so every theorem holds for
  any hashing backend.
* A Python `TypeError` escaping a handler (FastAPI turns it into an
  HTTP 500 response) is modelled by the `HttpError.typeError` constructor.
-/

/-- `ACCESS_TOKEN_EXPIRE_MINUTES = 30` from the source. -/
def ACCESS_TOKEN_EXPIRE_MINUTES : Nat := 30

/-- `REFRESH_TOKEN_EXPIRE_DAYS = 10` from the source. -/
def REFRESH_TOKEN_EXPIRE_DAYS : Nat := 10

/-- `SECRET_KEY = os.getenv("SECRET_KEY", "my_secret_key")`: the default
shared signing secret.  The claims do not depend on its value. -/
def SECRET_KEY : String := "my_secret_key"

/-- A JWT claim set as produced by `create_access_token` /
`create_refresh_token`: optional `sub`, `role` and `type` claims plus the
`exp` expiry timestamp (seconds).  `jose` treats a missing claim as absent,
which `Option` models. -/
structure JwtPayload where
  sub : Option String
  role : Option String
  type : Option String
  exp : Nat
deriving DecidableEq, Repr

/-- A bearer-token string: either the deterministic HS256 encoding of a
payload under a signing key (`jwt.encode(payload, key, HS256)`), or a
string that is not a well-formed signed token at all. -/
inductive Token where
  | signed (key : String) (payload : JwtPayload)
  | malformed (raw : String)
deriving DecidableEq, Repr

/-- Row of the `users` table. -/
structure UserRow where
  id : Nat
  username : String
  hashed_password : String
  email : String
  role : String
deriving DecidableEq, Repr

/-- Row of the `courses` table. -/
structure CourseRow where
  id : Nat
  title : String
  description : Option String
  teacher_id : Option Nat
deriving DecidableEq, Repr

/-- Row of the `refresh_tokens` ledger table. -/
structure RefreshTokenRow where
  id : Nat
  user_id : Nat
  token : Token
  user_role : String
  created_at : Nat
  expires_at : Nat
deriving DecidableEq, Repr

/-- The persisted store: `users`, `courses`, the `enrollments` association
table (rows `(user_id, course_id)`) and the `refresh_tokens` ledger.
Assignments play no part in any claim and are omitted. -/
structure DB where
  users : List UserRow
  courses : List CourseRow
  enrollments : List (Nat × Nat)
  refresh_tokens : List RefreshTokenRow
deriving DecidableEq, Repr

/-- An exception escaping a handler: `HTTPException(status_code, detail)`,
or an uncaught Python `TypeError` (surfaced by FastAPI as HTTP 500). -/
inductive HttpError where
  | httpException (status : Nat) (detail : String)
  | typeError (msg : String)
deriving DecidableEq, Repr

/-- SQLite `INTEGER PRIMARY KEY` autoincrement for the `users` table:
one more than the largest existing id. -/
def nextUserId (db : DB) : Nat :=
  (db.users.map (fun u => u.id)).foldr max 0 + 1

/-- Autoincrement for the `refresh_tokens` table. -/
def nextRefreshTokenId (db : DB) : Nat :=
  (db.refresh_tokens.map (fun r => r.id)).foldr max 0 + 1

/-- `create_access_token(username, role)`:
payload `{sub, role, exp: now + 30 minutes}` signed with `SECRET_KEY`. -/
def create_access_token (now : Nat) (username role : String) : Token :=
  .signed SECRET_KEY
    { sub := some username, role := some role, type := none,
      exp := now + ACCESS_TOKEN_EXPIRE_MINUTES * 60 }

/-- `create_refresh_token(username, role)`:
payload `{sub, role, type: "refresh", exp: now + 10 days}` signed with
`SECRET_KEY`.  Note that `role` is a required positional parameter with no
default. -/
def create_refresh_token (now : Nat) (username role : String) : Token :=
  .signed SECRET_KEY
    { sub := some username, role := some role, type := some "refresh",
      exp := now + REFRESH_TOKEN_EXPIRE_DAYS * 86400 }

/-- `jose.jwt.decode(token, key, [HS256])`: fails (raises `JWTError`) on a
malformed token, a wrong-key signature, or an expired `exp` claim; on
success returns the payload. -/
def jwtDecode (now : Nat) (key : String) (t : Token) :
    Except Unit JwtPayload :=
  match t with
  | .malformed _ => .error ()
  | .signed k p => if k = key ∧ now < p.exp then .ok p else .error ()

instance {ε α : Type} [DecidableEq ε] [DecidableEq α] :
    DecidableEq (Except ε α) := fun a b =>
  match a, b with
  | .ok x, .ok y =>
      if h : x = y then .isTrue (by rw [h])
      else .isFalse (by intro hc; cases hc; exact h rfl)
  | .error x, .error y =>
      if h : x = y then .isTrue (by rw [h])
      else .isFalse (by intro hc; cases hc; exact h rfl)
  | .ok _, .error _ => .isFalse (by intro hc; cases hc)
  | .error _, .ok _ => .isFalse (by intro hc; cases hc)

/-- `decode_token(token)`: wraps `jwt.decode`, turning `JWTError` into
`HTTPException(401, "Token is invalid")`. -/
def decode_token (now : Nat) (t : Token) : Except HttpError JwtPayload :=
  match jwtDecode now SECRET_KEY t with
  | .ok payload => .ok payload
  | .error _ => .error (.httpException 401 "Token is invalid")

/-- Python truthiness of an optional string (`if not username`): `None` and
the empty string are both falsy. -/
def strTruthy : Option String → Bool
  | none => false
  | some s => s ≠ ""

/-- `save_refresh_token(db, user, refresh_token)`: inserts a ledger row
`{user_id, token, user_role, created_at: now, expires_at: now + 10 days}`
and commits. -/
def save_refresh_token (now : Nat) (user : UserRow) (refresh_token : Token)
    (db : DB) : RefreshTokenRow × DB :=
  let refresh : RefreshTokenRow :=
    { id := nextRefreshTokenId db, user_id := user.id,
      token := refresh_token, user_role := user.role, created_at := now,
      expires_at := now + REFRESH_TOKEN_EXPIRE_DAYS * 86400 }
  (refresh, { db with refresh_tokens := db.refresh_tokens ++ [refresh] })

/-- Body of `POST /users/register` (`CreateUser` schema).  The `role` field
is accepted by the schema with default "student". -/
structure CreateUser where
  username : String
  password : String
  email : String
  role : String := "student"
deriving DecidableEq, Repr

/-- The OAuth2 password form consumed by `POST /users/login`. -/
structure LoginForm where
  username : String
  password : String
deriving DecidableEq, Repr

/-- The `TokenResponse` schema returned by login and refresh. -/
structure TokenResponse where
  access_token : Token
  refresh_token : Token
  token_type : String := "Bearer"
deriving DecidableEq, Repr

/-- `AuthService.register_user(username, email, password)`: rejects a taken
username (`400 Username already in use.`), then a taken email
(`400 Email already in use.`); otherwise inserts a user with the hashed
password and role "student" and returns it. -/
def register_user (hash : String → String)
    (username email password : String) (db : DB) :
    Except HttpError UserRow × DB :=
  if (db.users.find? (fun u => u.username = username)).isSome then
    (.error (.httpException 400 "Username already in use."), db)
  else if (db.users.find? (fun u => u.email = email)).isSome then
    (.error (.httpException 400 "Email already in use."), db)
  else
    let new_user : UserRow :=
      { id := nextUserId db, username := username, email := email,
        hashed_password := hash password, role := "student" }
    (.ok new_user, { db with users := db.users ++ [new_user] })

/-- `AuthService.login_user(username, password)`: looks the user up by
username and verifies the password; any failure is
`400 Incorrect password.`. -/
def login_user (verify : String → String → Bool)
    (username password : String) (db : DB) : Except HttpError UserRow :=
  match db.users.find? (fun u => u.username = username) with
  | none => .error (.httpException 400 "Incorrect password.")
  | some user =>
      if verify password user.hashed_password then .ok user
      else .error (.httpException 400 "Incorrect password.")

/-- Handler of `POST /users/register`: delegates to
`AuthService.register_user(user.username, user.email, user.password)` —
the request's `role` field is never passed on. -/
def register (hash : String → String) (user : CreateUser) (db : DB) :
    Except HttpError UserRow × DB :=
  register_user hash user.username user.email user.password db

/-- Handler of `POST /users/login`.  After a successful credential check it
evaluates `create_access_token(username=..., role=...)`, then calls
`create_refresh_token(username=user.username)` — the required positional
argument `role` is not supplied, so Python raises
`TypeError: create_refresh_token() missing 1 required positional argument:
role` before any token is returned or any ledger row is written. -/
def login (now : Nat) (verify : String → String → Bool)
    (form_data : LoginForm) (db : DB) :
    Except HttpError TokenResponse × DB :=
  match login_user verify form_data.username form_data.password db with
  | .error e => (.error e, db)
  | .ok user =>
      let _access_token := create_access_token now user.username user.role
      (.error (.typeError
        "create_refresh_token() missing 1 required positional argument: role"),
       db)

/-- Handler of `POST /users/refresh`: decodes the submitted refresh token
(`JWTError` and a falsy `sub` both yield `400 Invalid token.`), looks up the
ledger row by exact token (`404 Token not found.` if absent), looks up the
user by subject (`404 User not found.` if absent), then evaluates
`create_access_token` and calls `create_refresh_token(username=...)` with
the required `role` argument missing — a `TypeError` is raised before
`save_refresh_token` or `db.delete(db_token)` run, so the ledger is never
mutated. -/
def refresh (now : Nat) (refresh_token : Token) (db : DB) :
    Except HttpError TokenResponse × DB :=
  match jwtDecode now SECRET_KEY refresh_token with
  | .error _ => (.error (.httpException 400 "Invalid token."), db)
  | .ok payload =>
      if ¬ strTruthy payload.sub then
        (.error (.httpException 400 "Invalid token."), db)
      else
        match db.refresh_tokens.find? (fun r => r.token = refresh_token) with
        | none => (.error (.httpException 404 "Token not found."), db)
        | some _db_token =>
            match db.users.find?
                (fun u => some u.username = payload.sub) with
            | none => (.error (.httpException 404 "User not found."), db)
            | some user =>
                let _access_token :=
                  create_access_token now user.username user.role
                (.error (.typeError
                  "create_refresh_token() missing 1 required positional argument: role"),
                 db)

/-- `get_current_user(token, db)`: `decode_token` (401 on `JWTError`), then
`400 Invalid token.` when the `sub` claim is absent or empty, then
`404 User not found.` when no user carries that username; otherwise returns
the user.  It performs no store mutation, which the return type records. -/
def get_current_user (now : Nat) (token : Token) (db : DB) :
    Except HttpError UserRow :=
  match decode_token now token with
  | .error e => .error e
  | .ok payload =>
      if ¬ strTruthy payload.sub then
        .error (.httpException 400 "Invalid token.")
      else
        match db.users.find? (fun u => some u.username = payload.sub) with
        | none => .error (.httpException 404 "User not found.")
        | some user => .ok user

/-- Handler of `POST /courses/course_id/enroll`: 404s for a missing course
or user; `401 User is already enrolled.` when the pair is already in the
association table; otherwise appends the enrollment row and returns the
user. -/
def add_user_to_course (course_id user_id : Nat) (db : DB) :
    Except HttpError UserRow × DB :=
  let course? := db.courses.find? (fun c => c.id = course_id)
  let user? := db.users.find? (fun u => u.id = user_id)
  match course? with
  | none => (.error (.httpException 404 "Course not found."), db)
  | some course =>
      match user? with
      | none => (.error (.httpException 404 "User not found."), db)
      | some user =>
          if (user.id, course.id) ∈ db.enrollments then
            (.error (.httpException 401 "User is already enrolled."), db)
          else
            (.ok user,
             { db with
                enrollments := db.enrollments ++ [(user.id, course.id)] })

/-- Handler of `DELETE /courses/course_id/enroll`: 404s for a missing
course or user; `401 User not found` (no trailing period, unlike the 404s)
when the pair is not enrolled; otherwise removes the enrollment row and
returns the user. -/
def delete_user_from_course (course_id user_id : Nat) (db : DB) :
    Except HttpError UserRow × DB :=
  let course? := db.courses.find? (fun c => c.id = course_id)
  let user? := db.users.find? (fun u => u.id = user_id)
  match course? with
  | none => (.error (.httpException 404 "Course not found."), db)
  | some course =>
      match user? with
      | none => (.error (.httpException 404 "User not found."), db)
      | some user =>
          if (user.id, course.id) ∈ db.enrollments then
            (.ok user,
             { db with
                enrollments := db.enrollments.erase (user.id, course.id) })
          else
            (.error (.httpException 401 "User not found"), db)

/-- The HTTP status an exception surfaces as: the `HTTPException` status, or
500 for an uncaught `TypeError`. -/
def errorStatus {α : Type} : Except HttpError α → Option Nat
  | .ok _ => none
  | .error (.httpException s _) => some s
  | .error (.typeError _) => some 500

/-- The uniqueness invariant of §3: usernames and emails are globally
unique among stored users. -/
def usersUnique (db : DB) : Prop :=
  (db.users.map (fun u => u.username)).Nodup ∧
  (db.users.map (fun u => u.email)).Nodup

instance (db : DB) : Decidable (usersUnique db) := by
  unfold usersUnique; infer_instance

/-! ## Concrete fixtures used by the closed theorems and witnesses -/

/-- A concrete stand-in for the abstract password hash. -/
def hash0 : String → String := fun s => "H" ++ s

/-- The verifier matching `hash0`. -/
def verify0 : String → String → Bool := fun p h => "H" ++ p = h

def alice : UserRow :=
  { id := 1, username := "alice", hashed_password := "Hpw1",
    email := "alice@example.com", role := "student" }

def bob : UserRow :=
  { id := 2, username := "bob", hashed_password := "Hpw2",
    email := "bob@example.com", role := "teacher" }

def carol : UserRow :=
  { id := 3, username := "carol", hashed_password := "Hpw3",
    email := "carol@example.com", role := "student" }

def db1 : DB :=
  { users := [alice], courses := [], enrollments := [], refresh_tokens := [] }

def dbEmpty : DB :=
  { users := [], courses := [], enrollments := [], refresh_tokens := [] }

def tokAlice : Token := create_refresh_token 0 "alice" "student"

def rowAlice : RefreshTokenRow :=
  { id := 1, user_id := 1, token := tokAlice, user_role := "student",
    created_at := 0, expires_at := 864000 }

def db2 : DB :=
  { users := [alice], courses := [], enrollments := [],
    refresh_tokens := [rowAlice] }

def tokBob : Token := create_refresh_token 0 "bob" "teacher"

def rowBob : RefreshTokenRow :=
  { id := 7, user_id := 2, token := tokBob, user_role := "teacher",
    created_at := 0, expires_at := 864000 }

def db3 : DB :=
  { users := [bob], courses := [], enrollments := [],
    refresh_tokens := [rowBob] }

def tokCarol : Token :=
  .signed SECRET_KEY
    { sub := some "carol", role := some "student", type := some "refresh",
      exp := 1000000 }

/-- Ledger row for `tokCarol` whose `expires_at` (50) is in the past at
`now = 100`, while the token signature itself is still unexpired. -/
def rowCarolPast : RefreshTokenRow :=
  { id := 9, user_id := 3, token := tokCarol, user_role := "student",
    created_at := 0, expires_at := 50 }

/-- The same row with a far-future `expires_at`. -/
def rowCarolFuture : RefreshTokenRow :=
  { id := 9, user_id := 3, token := tokCarol, user_role := "student",
    created_at := 0, expires_at := 999999 }

def dbCarolPast : DB :=
  { users := [carol], courses := [], enrollments := [],
    refresh_tokens := [rowCarolPast] }

def dbCarolFuture : DB :=
  { users := [carol], courses := [], enrollments := [],
    refresh_tokens := [rowCarolFuture] }

def course1 : CourseRow :=
  { id := 10, title := "Algebra", description := none, teacher_id := some 2 }

/-- Store in which `alice` is already enrolled in `course1`. -/
def db4 : DB :=
  { users := [alice], courses := [course1], enrollments := [(1, 10)],
    refresh_tokens := [] }

def course2 : CourseRow :=
  { id := 20, title := "Geometry", description := some "shapes",
    teacher_id := some 2 }

/-- Store in which `alice` exists but is not enrolled in `course2`. -/
def db5 : DB :=
  { users := [alice], courses := [course2], enrollments := [],
    refresh_tokens := [] }

/-! ## Claim theorems -/

/-- C1: the claim says a correct-credential `POST /users/login` succeeds
with an access/refresh pair and persists a ledger row.  In the code,
`login` calls `create_refresh_token(username=user.username)` without the
required `role` argument, so every correct-credential login raises a
`TypeError` (HTTP 500) and writes no ledger row: here `alice` logs in with
the right password and the handler crashes, leaving the store untouched. -/
theorem login_crashes_with_type_error :
    login 0 verify0 { username := "alice", password := "pw1" } db1 =
      (.error (.typeError
        "create_refresh_token() missing 1 required positional argument: role"),
       db1) := by decide

/-- C2: the claim says the first rotation of a ledger-backed refresh token
succeeds and the second fails with `TokenNotFound` (404).  In the code the
first `POST /users/refresh` already crashes with a `TypeError` (the
missing `role` argument) before deleting the old row, so the second call
with the same token behaves identically — it is never a 404. -/
theorem refresh_rotation_always_crashes :
    refresh 5 tokAlice db2 =
      (.error (.typeError
        "create_refresh_token() missing 1 required positional argument: role"),
       db2)
    ∧ refresh 5 tokAlice (refresh 5 tokAlice db2).2 =
      (.error (.typeError
        "create_refresh_token() missing 1 required positional argument: role"),
       db2)
    ∧ errorStatus (refresh 5 tokAlice (refresh 5 tokAlice db2).2).1 ≠
        some 404 := by decide

/-- C3: the claim says a rotation inserts the new ledger row and deletes
the old one atomically in one transaction.  In the code a rotation attempt
raises a `TypeError` before `save_refresh_token` and `db.delete` run —
neither mutation is performed at all (and as written, the insert would be
committed inside `save_refresh_token` separately from the delete's
commit): the ledger after the attempt still holds exactly the old row. -/
theorem rotation_attempt_mutates_nothing :
    (refresh 1 tokBob db3).2.refresh_tokens = [rowBob]
    ∧ (refresh 1 tokBob db3).1 =
        .error (.typeError
          "create_refresh_token() missing 1 required positional argument: role") := by
  decide

/-- C8: the claim says a rotation attempt on a ledger-present row with a
past `expires_at` is still honored.  The code indeed never compares
`expires_at` with the current time — the attempt fails identically (a
`TypeError`, not an expiry rejection) whether the row expired at 50 or
expires at 999999, with `now = 100`, and the expired row is not removed —
but it is never honored: no rotation attempt succeeds. -/
theorem refresh_ignores_ledger_expiry_but_crashes :
    refresh 100 tokCarol dbCarolPast =
      (.error (.typeError
        "create_refresh_token() missing 1 required positional argument: role"),
       dbCarolPast)
    ∧ refresh 100 tokCarol dbCarolFuture =
      (.error (.typeError
        "create_refresh_token() missing 1 required positional argument: role"),
       dbCarolFuture)
    ∧ (refresh 100 tokCarol dbCarolPast).2.refresh_tokens = [rowCarolPast] := by
  decide

/-- C4 counterexample: enrolling `alice` (id 1) into `course1` (id 10) when
the pair is already enrolled raises `401 User is already enrolled.`, not
the HTTP 400 the claim states. -/
theorem enroll_duplicate_returns_401_not_400 :
    add_user_to_course 10 1 db4 =
      (.error (.httpException 401 "User is already enrolled."), db4)
    ∧ errorStatus (add_user_to_course 10 1 db4).1 ≠ some 400 := by decide

/-- C4 amended: for every existing course and user with the pair already in
the enrollment table, a second enroll fails with HTTP 401
(`User is already enrolled.`) — not 400 — and the store is unchanged. -/
theorem enroll_duplicate_conflict_status_401 (db : DB) (cid uid : Nat)
    (course : CourseRow) (user : UserRow)
    (hc : db.courses.find? (fun c => c.id = cid) = some course)
    (hu : db.users.find? (fun u => u.id = uid) = some user)
    (he : (user.id, course.id) ∈ db.enrollments) :
    add_user_to_course cid uid db =
      (.error (.httpException 401 "User is already enrolled."), db) := by
  simp only [add_user_to_course, hc, hu]
  simp [he]

/-- Witness for the C4 amended theorem at the concrete store `db4`. -/
theorem enroll_duplicate_conflict_status_401_witness :
    add_user_to_course 10 1 db4 =
      (.error (.httpException 401 "User is already enrolled."), db4) :=
  enroll_duplicate_conflict_status_401 db4 10 1 course1 alice
    (by decide) (by decide) (by decide)

/-- C5 counterexample: unenrolling `alice` (id 1) from `course2` (id 20)
when the pair is not enrolled raises `401 User not found`, not the HTTP 404
the claim states. -/
theorem unenroll_absent_returns_401_not_404 :
    delete_user_from_course 20 1 db5 =
      (.error (.httpException 401 "User not found"), db5)
    ∧ errorStatus (delete_user_from_course 20 1 db5).1 ≠ some 404 := by
  decide

/-- C5 amended: for every existing course and user with the pair absent
from the enrollment table, unenroll fails with HTTP 401 (`User not found`)
— not 404 — and the store is unchanged. -/
theorem unenroll_absent_status_401 (db : DB) (cid uid : Nat)
    (course : CourseRow) (user : UserRow)
    (hc : db.courses.find? (fun c => c.id = cid) = some course)
    (hu : db.users.find? (fun u => u.id = uid) = some user)
    (he : (user.id, course.id) ∉ db.enrollments) :
    delete_user_from_course cid uid db =
      (.error (.httpException 401 "User not found"), db) := by
  simp only [delete_user_from_course, hc, hu]
  simp [he]

/-- Witness for the C5 amended theorem at the concrete store `db5`. -/
theorem unenroll_absent_status_401_witness :
    delete_user_from_course 20 1 db5 =
      (.error (.httpException 401 "User not found"), db5) :=
  unenroll_absent_status_401 db5 20 1 course2 alice
    (by decide) (by decide) (by decide)

def tokBad : Token := .malformed "garbage"

def payloadNoSub : JwtPayload :=
  { sub := none, role := some "student", type := none, exp := 10 }

def tokNoSub : Token := .signed SECRET_KEY payloadNoSub

def payloadAliceAccess : JwtPayload :=
  { sub := some "alice", role := some "student", type := none, exp := 50 }

def tokAliceAccess : Token := .signed SECRET_KEY payloadAliceAccess

/-- C7 counterexample: a correctly signed, unexpired token whose `sub`
claim is absent makes the session resolver fail with HTTP 400
(`Invalid token.`), not the HTTP 401 the claim states for a missing
required claim. -/
theorem resolver_missing_sub_returns_400_not_401 :
    get_current_user 0 tokNoSub db1 =
      .error (.httpException 400 "Invalid token.")
    ∧ errorStatus (get_current_user 0 tokNoSub db1) ≠ some 401 := by decide

/-- C7 amended: the session resolver maps a failed signature/expiry check
to HTTP 401 (`Token is invalid`), an absent or empty `sub` claim to HTTP
400 (`Invalid token.`), an unknown subject to HTTP 404
(`User not found.`), and otherwise returns the user whose username equals
the subject; its type (`DB` appears only as input) shows it has no side
effects. -/
theorem resolver_error_mapping (now : Nat) (tok : Token) (db : DB) :
    (jwtDecode now SECRET_KEY tok = .error () →
      get_current_user now tok db =
        .error (.httpException 401 "Token is invalid"))
    ∧ (∀ p, jwtDecode now SECRET_KEY tok = .ok p → ¬ strTruthy p.sub →
      get_current_user now tok db =
        .error (.httpException 400 "Invalid token."))
    ∧ (∀ p, jwtDecode now SECRET_KEY tok = .ok p → strTruthy p.sub →
      db.users.find? (fun u => some u.username = p.sub) = none →
      get_current_user now tok db =
        .error (.httpException 404 "User not found."))
    ∧ (∀ p u, jwtDecode now SECRET_KEY tok = .ok p → strTruthy p.sub →
      db.users.find? (fun u => some u.username = p.sub) = some u →
      get_current_user now tok db = .ok u) := by
  refine ⟨fun hd => ?_, fun p hd hs => ?_, fun p hd hs hf => ?_,
    fun p u hd hs hf => ?_⟩
  · simp [get_current_user, decode_token, hd]
  · simp [get_current_user, decode_token, hd, hs]
  · simp [get_current_user, decode_token, hd, hs, hf]
  · simp [get_current_user, decode_token, hd, hs, hf]

/-- Witness for the C7 amended theorem: one concrete input per branch. -/
theorem resolver_error_mapping_witness :
    get_current_user 0 tokBad db1 =
      .error (.httpException 401 "Token is invalid")
    ∧ get_current_user 0 tokNoSub db1 =
      .error (.httpException 400 "Invalid token.")
    ∧ get_current_user 0 tokAliceAccess dbEmpty =
      .error (.httpException 404 "User not found.")
    ∧ get_current_user 0 tokAliceAccess db1 = .ok alice :=
  ⟨(resolver_error_mapping 0 tokBad db1).1 (by decide),
   (resolver_error_mapping 0 tokNoSub db1).2.1 payloadNoSub
     (by decide) (by decide),
   (resolver_error_mapping 0 tokAliceAccess dbEmpty).2.2.1
     payloadAliceAccess (by decide) (by decide) (by decide),
   (resolver_error_mapping 0 tokAliceAccess db1).2.2.2
     payloadAliceAccess alice (by decide) (by decide) (by decide)⟩

/-- C6: registration with a username or email colliding with any stored
user is rejected with HTTP 400 and leaves the store unchanged, and
registration preserves global uniqueness of usernames and emails. -/
theorem register_uniqueness_invariant (hash : String → String)
    (req : CreateUser) (db : DB) :
    ((∃ u ∈ db.users,
        u.username = req.username ∨ u.email = req.email) →
      errorStatus (register hash req db).1 = some 400 ∧
      (register hash req db).2 = db)
    ∧ (usersUnique db → usersUnique (register hash req db).2) := by
  constructor
  · rintro ⟨u, hu, hcol⟩
    rcases hcol with hcu | hce
    · have h1 : (db.users.find? (fun v => v.username = req.username)).isSome :=
        List.find?_isSome.mpr ⟨u, hu, by simp [hcu]⟩
      simp [register, register_user, h1, errorStatus]
    · by_cases h1 :
        (db.users.find? (fun v => v.username = req.username)).isSome
      · simp [register, register_user, h1, errorStatus]
      · have h2 : (db.users.find? (fun v => v.email = req.email)).isSome :=
          List.find?_isSome.mpr ⟨u, hu, by simp [hce]⟩
        simp [register, register_user, h1, h2, errorStatus]
  · intro hun
    by_cases h1 :
      (db.users.find? (fun v => v.username = req.username)).isSome
    · simpa [register, register_user, h1] using hun
    · by_cases h2 : (db.users.find? (fun v => v.email = req.email)).isSome
      · simpa [register, register_user, h1, h2] using hun
      · have hn1 : ∀ v ∈ db.users, v.username ≠ req.username := by
          intro v hv
          have := List.find?_eq_none.mp
            (Option.not_isSome_iff_eq_none.mp h1) v hv
          simpa using this
        have hn2 : ∀ v ∈ db.users, v.email ≠ req.email := by
          intro v hv
          have := List.find?_eq_none.mp
            (Option.not_isSome_iff_eq_none.mp h2) v hv
          simpa using this
        obtain ⟨hu1, hu2⟩ := hun
        simp only [register, register_user, h1, h2, if_false,
          Bool.false_eq_true, usersUnique, List.map_append, List.map_cons,
          List.map_nil]
        constructor
        · rw [List.nodup_append]
          refine ⟨hu1, List.nodup_singleton _, ?_⟩
          intro a ha hb
          simp only [List.mem_singleton] at hb
          obtain ⟨v, hv, hva⟩ := List.mem_map.mp ha
          exact hn1 v hv (by rw [hva, hb])
        · rw [List.nodup_append]
          refine ⟨hu2, List.nodup_singleton _, ?_⟩
          intro a ha hb
          simp only [List.mem_singleton] at hb
          obtain ⟨v, hv, hva⟩ := List.mem_map.mp ha
          exact hn2 v hv (by rw [hva, hb])

def reqDupUsername : CreateUser :=
  { username := "alice", password := "z", email := "fresh@example.com",
    role := "student" }

/-- Witness for C6: registering a second "alice" against `db1` is rejected
with HTTP 400, the store is unchanged, and uniqueness still holds. -/
theorem register_uniqueness_invariant_witness :
    (errorStatus (register hash0 reqDupUsername db1).1 = some 400 ∧
      (register hash0 reqDupUsername db1).2 = db1)
    ∧ usersUnique (register hash0 reqDupUsername db1).2 :=
  ⟨(register_uniqueness_invariant hash0 reqDupUsername db1).1
      ⟨alice, by decide, Or.inl (by decide)⟩,
   (register_uniqueness_invariant hash0 reqDupUsername db1).2 (by decide)⟩

/-- C10: the `role` field of the registration request is dead: the handler
never passes it on, so the response and post-store are identical for any
two supplied roles, and every successfully created user has role
"student". -/
theorem register_ignores_role_field (hash : String → String)
    (req : CreateUser) (db : DB) (r : String) :
    register hash { req with role := r } db = register hash req db
    ∧ (∀ u, (register hash req db).1 = .ok u → u.role = "student") := by
  constructor
  · rfl
  · intro u hu
    by_cases h1 :
      (db.users.find? (fun v => v.username = req.username)).isSome
    · simp [register, register_user, h1] at hu
    · by_cases h2 : (db.users.find? (fun v => v.email = req.email)).isSome
      · simp [register, register_user, h1, h2] at hu
      · simp [register, register_user, h1, h2] at hu
        simp [← hu]

def reqEve : CreateUser :=
  { username := "eve", password := "p", email := "eve@example.com",
    role := "student" }

def userEve : UserRow :=
  { id := 1, username := "eve", hashed_password := "Hp",
    email := "eve@example.com", role := "student" }

/-- Witness for C10: registering "eve" with a requested role of "admin"
behaves exactly as with "student", and the created user is a student. -/
theorem register_ignores_role_field_witness :
    register hash0 { reqEve with role := "admin" } dbEmpty =
      register hash0 reqEve dbEmpty
    ∧ userEve.role = "student" :=
  ⟨(register_ignores_role_field hash0 reqEve dbEmpty "admin").1,
   (register_ignores_role_field hash0 reqEve dbEmpty "admin").2 userEve
     (by decide)⟩
